import Mathlib

/-!
Shallow embedding of the ptnotes data layer (ptn/database.py) and proofs
about its host, item, attack and project stores.

Tables are modelled as Lean lists of row structures together with the
autoincrement counter of the `id` column.  SQL statements are translated
operation by operation: `INSERT` appends a row, `UPDATE ... WHERE` maps a
conditional rewrite over the rows, `SELECT ... WHERE` filters, `fetchone()`
takes the head of the result list, `DISTINCT` de-duplicates and
`ORDER BY ... ASC` sorts.  A Python `sqlite3` value that can be `NULL` is an
`Option`; a Python runtime error (such as subscripting `None`) is an
`Except.error`.
-/

namespace Ptnotes

/-- Row of the `hosts` table: `hosts(id integer primary key autoincrement,
ip text, note text)`.  `create_host` inserts only `ip`, leaving `note`
NULL, so `note` is an `Option String`. -/
structure HostRow where
  id : Nat
  ip : String
  note : Option String
  deriving DecidableEq

/-- State of one project's `hosts` table plus its autoincrement counter. -/
structure HostDB where
  rows : List HostRow
  nextId : Nat
  deriving DecidableEq

/-- Model of "SELECT DISTINCT + ORDER BY ASC": de-duplicate, then sort
ascending. -/
def sqlDistinctSortedAsc {α : Type} [DecidableEq α] [LinearOrder α]
    (l : List α) : List α :=
  List.insertionSort (fun a b => a ≤ b) l.dedup

/-- Model of `HostDatabase.create_host`: `INSERT INTO hosts (ip) VALUES(?)`;
the `note` column is left NULL. -/
def create_host (db : HostDB) (ip : String) : HostDB × Bool :=
  ({ rows := db.rows ++ [{ id := db.nextId, ip := ip, note := none }],
     nextId := db.nextId + 1 }, true)

/-- Model of `HostDatabase.get_hosts`:
`SELECT DISTINCT ip FROM hosts ORDER BY ip`. -/
def get_hosts (db : HostDB) : List String :=
  sqlDistinctSortedAsc (db.rows.map HostRow.ip)

/-- Model of `HostDatabase.get_host_note`: `SELECT note from hosts WHERE
ip=?` followed by `self.cur.fetchone()['note']`.  When no row matches,
`fetchone()` yields Python `None`, and subscripting it raises `TypeError`;
that raise is modelled as `Except.error`.  When a row matches, the first
matching row's (possibly NULL) note is returned. -/
def get_host_note (db : HostDB) (ip : String) : Except String (Option String) :=
  match (db.rows.filter (fun r => r.ip == ip)).head? with
  | some r => Except.ok r.note
  | none => Except.error "TypeError: NoneType object is not subscriptable"

/-- Model of `HostDatabase.update_host_note`:
`UPDATE hosts SET note=? WHERE ip=?`. -/
def update_host_note (db : HostDB) (ip note : String) : HostDB × Bool :=
  ({ db with
      rows := db.rows.map
        (fun r => if r.ip == ip then { r with note := some note } else r) },
   true)

/-- Row of the `attacks` table: `attacks(id integer primary key
autoincrement, name text, description text, items text, note text)`.
The `items` TEXT column is modelled as its character sequence, since the
claims are about joining and splitting it on the comma delimiter. -/
structure Attack where
  id : Nat
  name : String
  description : String
  items : List Char
  note : String
  deriving DecidableEq

/-- State of one project's `attacks` table plus its autoincrement counter. -/
structure AttackDB where
  rows : List Attack
  nextId : Nat
  deriving DecidableEq

/-- Model of `AttackDatabase.create_attack`: `INSERT INTO attacks (name,
description, items, note) VALUES(?,?,?,?)` with `','.join(items)` as the
items field and an empty note.  Python `','.join` on a list of strings is
`List.intercalate` with separator `[',']` at the character level. -/
def create_attack (db : AttackDB) (name description : String)
    (items : List (List Char)) : AttackDB × Bool :=
  ({ rows := db.rows ++
      [{ id := db.nextId, name := name, description := description,
         items := List.intercalate [','] items, note := "" }],
     nextId := db.nextId + 1 }, true)

/-- Model of `AttackDatabase.get_attack`: `SELECT * FROM attacks WHERE id=?`
followed by `fetchone()`, giving the first matching row if any. -/
def get_attack (db : AttackDB) (aid : Nat) : Option Attack :=
  (db.rows.filter (fun a => a.id == aid)).head?

/-- Model of `AttackDatabase.get_attacks`:
`SELECT id, name, description FROM attacks`. -/
def get_attacks (db : AttackDB) : List (Nat × String × String) :=
  db.rows.map (fun a => (a.id, a.name, a.description))

/-- Model of `AttackDatabase.update_attack_hosts`:
`UPDATE attacks SET items=? WHERE id=?` with `','.join(items)`. -/
def update_attack_hosts (db : AttackDB) (aid : Nat)
    (items : List (List Char)) : AttackDB × Bool :=
  ({ db with
      rows := db.rows.map
        (fun a =>
          if a.id == aid then { a with items := List.intercalate [','] items }
          else a) },
   true)

/-- Model of the caller-side read-back of the `items` field: Python
`s.split(',')` on the stored TEXT value, at the character level. -/
def splitItems (s : List Char) : List (List Char) :=
  s.splitOn ','

/-- Model of `ScanDatabase.get_stats`: the source formats
`'Hosts: {0}  Attacks {1}'.format(len(self.hostdb.get_hosts()),
len(self.attackdb.get_attacks()))`. -/
def get_stats (hdb : HostDB) (adb : AttackDB) : String :=
  "Hosts: " ++ Nat.repr (get_hosts hdb).length ++
    "  Attacks " ++ Nat.repr (get_attacks adb).length

/-- Modelled from the spec: the Input Validator (`validate.Validate`) lives
in `validate.py`, which is not part of the source tree; §4.2 describes it as
pure predicate checks on ip, port, protocol and hash that signal failure.
Each check is modelled as an abstract boolean predicate; the
`AssertionError` a check raises in Python is modelled as a `false` result,
which is what `create_item` turns it into anyway. -/
structure Validators where
  ip : String → Bool
  port : Nat → Bool
  protocol : String → Bool
  hash : String → Bool

/-- Row of the `items` table: `items(id integer primary key autoincrement,
ip text, port integer, protocol text, note text, hash text)`. -/
structure Item where
  id : Nat
  ip : String
  port : Nat
  protocol : String
  note : String
  hash : String
  deriving DecidableEq

/-- State of one project's `items` table plus its autoincrement counter. -/
structure ItemDB where
  items : List Item
  nextId : Nat
  deriving DecidableEq

/-- Model of `ItemDatabase.create_item`: runs the four validator checks
inside `try`; any `AssertionError` is caught and the function returns
`False` without touching the table.  Only when all four checks pass is
`INSERT INTO items (ip, port, protocol, note, hash) VALUES(?,?,?,?,?)`
executed. -/
def create_item (v : Validators) (db : ItemDB) (ip : String) (port : Nat)
    (protocol note hash : String) : ItemDB × Bool :=
  if v.ip ip && v.port port && v.protocol protocol && v.hash hash then
    ({ items := db.items ++
        [{ id := db.nextId, ip := ip, port := port, protocol := protocol,
           note := note, hash := hash }],
       nextId := db.nextId + 1 }, true)
  else
    (db, false)

/-- ASCII case folding as SQLite's default LIKE applies it: the letters
A-Z fold to a-z and every other character is left unchanged (LIKE is
case-sensitive beyond ASCII). -/
def asciiLower (c : Char) : Char :=
  if 'A' ≤ c ∧ c ≤ 'Z' then Char.ofNat (c.toNat + 32) else c

/-- Character comparison used by SQLite LIKE: equal up to ASCII case. -/
def charLikeEq (p t : Char) : Bool :=
  asciiLower p == asciiLower t

/-- Model of SQLite LIKE pattern matching on character lists: in the
pattern, `%` matches any (possibly empty) character sequence, `_` matches
exactly one character, and any other character matches one text character
equal to it up to ASCII case; the whole text must be consumed. -/
def likeMatch : List Char → List Char → Bool
  | [], ts => ts.isEmpty
  | p :: ps, ts =>
    if p = '%' then
      ts.tails.any (fun suffix => likeMatch ps suffix)
    else
      match ts with
      | [] => false
      | t :: ts2 => (if p = '_' then true else charLikeEq p t) && likeMatch ps ts2

/-- Model of the generated WHERE clause of `get_items_by_keywords`: one
`note LIKE ?` term per keyword with parameter `'%{0}%'.format(kw)`,
OR-combined, under SQLite LIKE semantics. -/
def noteMatches (keywords : List String) (note : String) : Bool :=
  keywords.any (fun kw => likeMatch ('%' :: (kw.data ++ ['%'])) note.data)

/-- Model of `ItemDatabase.get_items_by_keywords`.  `keywords is None`
returns `[]` directly.  An empty keyword list builds
`SELECT id, ip, port FROM items WHERE ` with an empty disjunction, which
is malformed SQL: `execute_sql` catches the `sqlite3.Error`, returns
`False`, and the function returns `[]`.  Otherwise the rows whose note
matches some keyword are returned as (id, ip, port) triples. -/
def get_items_by_keywords (db : ItemDB) (keywords : Option (List String)) :
    List (Nat × String × Nat) :=
  match keywords with
  | none => []
  | some [] => []
  | some kws =>
    (db.items.filter (fun it => noteMatches kws it.note)).map
      (fun it => (it.id, it.ip, it.port))

/-- Result of `ItemDatabase.get_summary`: the `hosts`, `ips`, `tcp` and
`udp` entries of the summary dict. -/
structure Summary where
  hosts : List (String × Nat × String)
  ips : List String
  tcp : List Nat
  udp : List Nat
  deriving DecidableEq

/-- Model of `ItemDatabase.get_summary`: endpoints from
`SELECT ip, port, protocol FROM items WHERE port != 0`; distinct ips from
`SELECT DISTINCT(ip) FROM items` (no port filter); tcp and udp port lists
from `SELECT DISTINCT(port) FROM items WHERE port != 0 AND protocol ==
'tcp'/'udp' ORDER BY port ASC`. -/
def get_summary (db : ItemDB) : Summary :=
  { hosts := (db.items.filter (fun it => it.port != 0)).map
      (fun it => (it.ip, it.port, it.protocol)),
    ips := (db.items.map Item.ip).dedup,
    tcp := sqlDistinctSortedAsc
      ((db.items.filter (fun it => it.port != 0 && it.protocol == "tcp")).map
        Item.port),
    udp := sqlDistinctSortedAsc
      ((db.items.filter (fun it => it.port != 0 && it.protocol == "udp")).map
        Item.port) }

/-- Row of the registry table: `projects(id integer primary key
autoincrement, name text, note text, dbfile text)`.  `create_project`
inserts only name and dbfile, leaving `note` NULL. -/
structure Project where
  id : Nat
  name : String
  note : Option String
  dbfile : String
  deriving DecidableEq

/-- State of the `projects` registry table plus its autoincrement counter. -/
structure Registry where
  rows : List Project
  nextId : Nat
  deriving DecidableEq

/-- Path of a project's backing store file:
`os.path.join('data', token + '.sqlite')`. -/
def mkDbName (token : String) : String :=
  "data/" ++ token ++ ".sqlite"

/-- Model of `ProjectDatabase.create_project`: the source draws 12 random
hex characters for the token; the drawn token is passed explicitly here so
the claim can quantify over the outcomes of the generation.  Schema
creation at the new path succeeds on a fresh or existing file, after which
`INSERT INTO projects (name, dbfile) VALUES(?,?)` runs. -/
def create_project (reg : Registry) (token name : String) : Registry × Bool :=
  ({ rows := reg.rows ++
      [{ id := reg.nextId, name := name, note := none,
         dbfile := mkDbName token }],
     nextId := reg.nextId + 1 }, true)

/-- Model of `ProjectDatabase.get_project`: `SELECT name, dbfile, note FROM
projects WHERE id=?` followed by `fetchone()`: the first matching row, or
`none` when the id is absent. -/
def get_project (reg : Registry) (pid : Nat) : Option Project :=
  (reg.rows.filter (fun p => p.id == pid)).head?

/-- Model of `ProjectDatabase.delete_project`.  The source runs
`name, db_file, _ = self.get_project(pid)`: when the row lookup finds
nothing, `get_project` gives Python `None` and the tuple unpacking raises
`TypeError` before anything is logged or deleted, modelled as
`Except.error`.  When the row exists, the registry row is deleted and the
backing file (second component) is removed. -/
def delete_project (reg : Registry) (pid : Nat) :
    Except String (Registry × String) :=
  match get_project reg pid with
  | none => Except.error "TypeError: cannot unpack non-iterable NoneType object"
  | some p =>
    Except.ok
      ({ reg with rows := reg.rows.filter (fun q => q.id != pid) }, p.dbfile)

/-- Host store produced by creating the address 10.0.0.1 twice. -/
def twoSameHosts : HostDB :=
  (create_host (create_host { rows := [], nextId := 1 } "10.0.0.1").1
    "10.0.0.1").1

/-- Attack store produced by creating one attack with the empty items
list. -/
def emptyItemsAttackDB : AttackDB :=
  (create_attack { rows := [], nextId := 1 } "X" "D" []).1

/-- Registry produced by two create_project calls whose random token
generation came out identical. -/
def sameTokenRegistry : Registry :=
  (create_project (create_project { rows := [], nextId := 1 } "000000000000"
      "alpha").1
    "000000000000" "beta").1

/-- Item store for the keyword-search example of the spec: notes
"admin panel", "login form", "debug console". -/
def kwDb : ItemDB :=
  { items :=
      [{ id := 1, ip := "10.0.0.1", port := 80, protocol := "tcp",
         note := "admin panel", hash := "h1" },
       { id := 2, ip := "10.0.0.2", port := 443, protocol := "tcp",
         note := "login form", hash := "h2" },
       { id := 3, ip := "10.0.0.3", port := 8080, protocol := "tcp",
         note := "debug console", hash := "h3" }],
    nextId := 4 }

/-- Item store holding one item whose note is upper-case, used to exhibit
the case-insensitivity of LIKE, and one item with a one-character note,
used to exhibit the `_` wildcard. -/
def upperNoteDb : ItemDB :=
  { items :=
      [{ id := 1, ip := "10.0.0.9", port := 80, protocol := "tcp",
         note := "ADMIN PANEL", hash := "h" },
       { id := 2, ip := "10.0.0.8", port := 81, protocol := "tcp",
         note := "x", hash := "h" }],
    nextId := 3 }

/-- Item store for the summary example of the spec: (A,80,tcp), (A,53,udp),
(B,0,tcp). -/
def summaryExampleDb : ItemDB :=
  { items :=
      [{ id := 1, ip := "A", port := 80, protocol := "tcp", note := "",
         hash := "h" },
       { id := 2, ip := "A", port := 53, protocol := "udp", note := "",
         hash := "h" },
       { id := 3, ip := "B", port := 0, protocol := "tcp", note := "",
         hash := "h" }],
    nextId := 4 }

/-- Attack store holding one pre-existing attack, used to exercise the
round trip at concrete inputs. -/
def c5WitnessDB : AttackDB :=
  { rows := [{ id := 1, name := "old", description := "od", items := [],
               note := "" }],
    nextId := 2 }

/-- Validator set whose ip check always fails, standing in for a malformed
address. -/
def failIpValidators : Validators :=
  { ip := fun _ => false, port := fun _ => true,
    protocol := fun _ => true, hash := fun _ => true }

theorem sqlDistinctSortedAsc_sorted {α : Type} [DecidableEq α] [LinearOrder α]
    (l : List α) : (sqlDistinctSortedAsc l).Sorted (fun a b => a ≤ b) :=
  List.sorted_insertionSort _ _

theorem sqlDistinctSortedAsc_nodup {α : Type} [DecidableEq α] [LinearOrder α]
    (l : List α) : (sqlDistinctSortedAsc l).Nodup :=
  (List.perm_insertionSort _ _).nodup_iff.mpr (List.nodup_dedup l)

theorem sqlDistinctSortedAsc_mem {α : Type} [DecidableEq α] [LinearOrder α]
    (l : List α) (a : α) : a ∈ sqlDistinctSortedAsc l ↔ a ∈ l := by
  rw [sqlDistinctSortedAsc, (List.perm_insertionSort _ _).mem_iff,
    List.mem_dedup]

/-- C1: counterexample — after creating the address 10.0.0.1 twice the
hosts table holds two rows, yet `get_hosts` lists the address once: the
listing is de-duplicated by `SELECT DISTINCT`, contradicting "one row per
inserted hosts row ... not de-duplicated". -/
theorem c1_counterexample :
    twoSameHosts.rows.map HostRow.ip = ["10.0.0.1", "10.0.0.1"] ∧
      get_hosts twoSameHosts = ["10.0.0.1"] ∧
      (get_hosts twoSameHosts).length ≠ twoSameHosts.rows.length := by
  decide

/-- C1 (amended): for every sequence of host creations, `get_hosts`
returns one entry per distinct inserted address, ordered ascending and
de-duplicated: an address appears in the listing exactly when some hosts
row carries it. -/
theorem c1_host_listing (db : HostDB) :
    (get_hosts db).Sorted (fun a b => a ≤ b) ∧ (get_hosts db).Nodup ∧
      ∀ ip, ip ∈ get_hosts db ↔ ∃ r ∈ db.rows, r.ip = ip := by
  refine ⟨sqlDistinctSortedAsc_sorted _, sqlDistinctSortedAsc_nodup _, ?_⟩
  intro ip
  rw [get_hosts, sqlDistinctSortedAsc_mem, List.mem_map]

/-- C2: the code, not the claim, is wrong — when no hosts row carries the
requested address, `get_host_note` does not return the empty string:
`fetchone()` yields `None` and the subscript `['note']` raises
`TypeError`.  The claim's promised empty-string result never happens. -/
theorem c2_missing_host_raises (db : HostDB) (ip : String)
    (habsent : ∀ r ∈ db.rows, r.ip ≠ ip) :
    get_host_note db ip =
      Except.error "TypeError: NoneType object is not subscriptable" := by
  have h : db.rows.filter (fun r => r.ip == ip) = [] := by
    rw [List.filter_eq_nil_iff]
    intro r hr
    simp [habsent r hr]
  simp [get_host_note, h]

/-- C2 witness: on the empty host store, looking up the note of 10.0.0.1
raises rather than returning the empty string. -/
theorem c2_witness :
    get_host_note { rows := [], nextId := 1 } "10.0.0.1" =
      Except.error "TypeError: NoneType object is not subscriptable" :=
  c2_missing_host_raises { rows := [], nextId := 1 } "10.0.0.1"
    (by intro r hr; cases hr)

/-- C10: `update_host_note` rewrites the note of every row whose address
equals the given ip — duplicates included — to the new value, and leaves
the id and ip of every row, and the note of every non-matching row,
unchanged (row for row, so the table length is also preserved). -/
theorem c10_update_note_frame (db : HostDB) (ip note : String) :
    List.Forall₂
      (fun r s => s.id = r.id ∧ s.ip = r.ip ∧
        s.note = if r.ip = ip then some note else r.note)
      db.rows (update_host_note db ip note).1.rows := by
  rw [update_host_note]
  rw [List.forall₂_map_right_iff]
  rw [List.forall₂_same]
  intro r _
  by_cases h : r.ip = ip
  · simp [h]
  · simp [h]

/-- C9: counterexample — on the empty dataset `get_stats` returns
"Hosts: 0  Attacks 0", not "Hosts: 0  Attacks: 0": the source format
string has no colon after "Attacks". -/
theorem c9_counterexample :
    get_stats { rows := [], nextId := 1 } { rows := [], nextId := 1 } =
        "Hosts: 0  Attacks 0" ∧
      get_stats { rows := [], nextId := 1 } { rows := [], nextId := 1 } ≠
        "Hosts: 0  Attacks: 0" := by
  decide

/-- C9 (amended): `get_stats` returns exactly
"Hosts: <n>  Attacks <m>" — with no colon after "Attacks" — where n is
the number of distinct host addresses and m the number of attacks. -/
theorem c9_stats_format (hdb : HostDB) (adb : AttackDB) :
    get_stats hdb adb =
      "Hosts: " ++ Nat.repr (hdb.rows.map HostRow.ip).dedup.length ++
        "  Attacks " ++ Nat.repr adb.rows.length := by
  rw [get_stats, get_hosts, get_attacks, sqlDistinctSortedAsc,
    (List.perm_insertionSort _ _).length_eq, List.length_map]

/-- C3: the code, not the claim, is wrong — for a project id with no
registry row, `get_project` yields `None` and `delete_project`'s tuple
unpacking `name, db_file, _ = ...` raises `TypeError` before the failed
lookup is logged; the function does not log-and-abort as the claim states
(though indeed no registry row and no file is deleted, the error occurring
before either deletion). -/
theorem c3_missing_project_raises (reg : Registry) (pid : Nat)
    (habsent : ∀ p ∈ reg.rows, p.id ≠ pid) :
    delete_project reg pid =
      Except.error "TypeError: cannot unpack non-iterable NoneType object" := by
  have h : reg.rows.filter (fun p => p.id == pid) = [] := by
    rw [List.filter_eq_nil_iff]
    intro p hp
    simp [habsent p hp]
  simp [delete_project, get_project, h]

/-- C3 witness: deleting project id 1 from the empty registry raises. -/
theorem c3_witness :
    delete_project { rows := [], nextId := 1 } 1 =
      Except.error "TypeError: cannot unpack non-iterable NoneType object" :=
  c3_missing_project_raises { rows := [], nextId := 1 } 1
    (by intro p hp; cases hp)

/-- C4: counterexample — the 12-hex-character token generation can repeat
an earlier outcome; when it does, both `create_project` calls succeed and
the two live registry rows share one store path, so distinctness does not
hold over all outcomes of the generation. -/
theorem c4_counterexample :
    sameTokenRegistry.rows.length = 2 ∧
      ¬ (sameTokenRegistry.rows.map Project.dbfile).Nodup := by
  decide

/-- C4 (amended): each successful `create_project` call appends exactly one
registry row whose store path is `data/<token>.sqlite`, and calls whose
generated tokens differ produce distinct store paths — so no two live
projects whose creations drew different tokens share a store path. -/
theorem c4_distinct_paths (reg : Registry) (t1 t2 name1 : String)
    (h : t1 ≠ t2) :
    (create_project reg t1 name1).1.rows.map Project.dbfile =
        reg.rows.map Project.dbfile ++ [mkDbName t1] ∧
      mkDbName t1 ≠ mkDbName t2 := by
  constructor
  · simp [create_project]
  · intro heq
    apply h
    have hd : ("data/" ++ t1 ++ ".sqlite").data =
        ("data/" ++ t2 ++ ".sqlite").data := by
      simpa [mkDbName] using congrArg String.data heq
    simp only [String.data_append, List.append_cancel_left_eq,
      List.append_cancel_right_eq] at hd
    exact String.ext hd

/-- C4 witness: with differing tokens aaaaaaaaaaaa and bbbbbbbbbbbb, the
created row carries path data/aaaaaaaaaaaa.sqlite and the two paths
differ. -/
theorem c4_witness :
    (create_project { rows := [], nextId := 1 } "aaaaaaaaaaaa" "p1").1.rows.map
          Project.dbfile =
        ({ rows := [], nextId := 1 } : Registry).rows.map Project.dbfile ++
          [mkDbName "aaaaaaaaaaaa"] ∧
      mkDbName "aaaaaaaaaaaa" ≠ mkDbName "bbbbbbbbbbbb" :=
  c4_distinct_paths { rows := [], nextId := 1 } "aaaaaaaaaaaa" "bbbbbbbbbbbb"
    "p1" (by decide)

/-- C8: whenever any of the four validator checks fails on the input,
`create_item` returns `False` and the items table is left exactly as it
was — the insert statement is never reached. -/
theorem c8_invalid_input_rejected (v : Validators) (db : ItemDB)
    (ip : String) (port : Nat) (protocol note hash : String)
    (h : ¬ (v.ip ip = true ∧ v.port port = true ∧
      v.protocol protocol = true ∧ v.hash hash = true)) :
    create_item v db ip port protocol note hash = (db, false) := by
  rw [create_item, if_neg]
  simpa [Bool.and_eq_true, and_assoc] using h

/-- C8 witness: a validator set that rejects the address makes
`create_item` on the empty store return `False` with the store
unchanged. -/
theorem c8_witness :
    create_item failIpValidators { items := [], nextId := 1 } "999.1.1.1" 80
        "tcp" "n" "h" =
      ({ items := [], nextId := 1 }, false) :=
  c8_invalid_input_rejected failIpValidators { items := [], nextId := 1 }
    "999.1.1.1" 80 "tcp" "n" "h" (by decide)

theorem filter_attack_map_update (rows : List Attack) (aid : Nat)
    (s : List Char) :
    (rows.map
        (fun a => if a.id == aid then { a with items := s } else a)).filter
        (fun a => a.id == aid) =
      (rows.filter (fun a => a.id == aid)).map
        (fun a => { a with items := s }) := by
  induction rows with
  | nil => rfl
  | cons a rest ih =>
    by_cases h : a.id = aid
    · simpa [h] using ih
    · simpa [h] using ih

/-- C5: counterexample — creating an attack with the empty reference list
(a list of non-empty references, vacuously) stores the empty string;
splitting it on the delimiter yields `[""]`, a one-entry list gaining a
spurious empty reference instead of the original empty list. -/
theorem c5_counterexample :
    (get_attack emptyItemsAttackDB 1).map (fun a => splitItems a.items) =
        some [[]] ∧
      (get_attack emptyItemsAttackDB 1).map (fun a => splitItems a.items) ≠
        some [] := by
  decide

/-- C5 (amended): for every NON-EMPTY list of item references none of
which contains the join delimiter, creating an attack (under a fresh id,
as autoincrement guarantees) or replacing the items of an existing attack
via `update_attack_hosts`, then reading it back with `get_attack` and
splitting the stored items field on the delimiter, yields exactly the
original ordered list. -/
theorem c5_attack_items_roundtrip (db : AttackDB) (name description : String)
    (items : List (List Char)) (hne : items ≠ [])
    (hc : ∀ s ∈ items, ',' ∉ s)
    (hfresh : ∀ a ∈ db.rows, a.id ≠ db.nextId) :
    ((get_attack (create_attack db name description items).1 db.nextId).map
        (fun a => splitItems a.items) = some items) ∧
      ∀ aid, (∃ a ∈ db.rows, a.id = aid) →
        (get_attack (update_attack_hosts db aid items).1 aid).map
            (fun a => splitItems a.items) = some items := by
  have hsplit : splitItems (List.intercalate [','] items) = items := by
    rw [splitItems]
    exact List.splitOn_intercalate items ',' hc hne
  constructor
  · have hold : db.rows.filter (fun a => a.id == db.nextId) = [] := by
      rw [List.filter_eq_nil_iff]
      intro a ha
      simp [hfresh a ha]
    simp [create_attack, get_attack, List.filter_append, hold, hsplit]
  · rintro aid ⟨a0, ha0, haid⟩
    have hmem : a0 ∈ db.rows.filter (fun a => a.id == aid) :=
      List.mem_filter.mpr ⟨ha0, by simp [haid]⟩
    rw [update_attack_hosts, get_attack]
    rw [filter_attack_map_update, List.head?_map]
    cases hh : (db.rows.filter (fun a => a.id == aid)).head? with
    | none =>
      exact absurd (List.head?_eq_none_iff.mp hh)
        (List.ne_nil_of_mem hmem)
    | some b => simp [hsplit]

/-- C5 witness: with references ["10", "20"] (as character lists) the
round trip through both `create_attack` and `update_attack_hosts` returns
the original two-element list. -/
theorem c5_witness :
    ((get_attack (create_attack c5WitnessDB "SQLi" "desc"
            [['1', '0'], ['2', '0']]).1 c5WitnessDB.nextId).map
        (fun a => splitItems a.items) = some [['1', '0'], ['2', '0']]) ∧
      (get_attack (update_attack_hosts c5WitnessDB 1
            [['1', '0'], ['2', '0']]).1 1).map
          (fun a => splitItems a.items) = some [['1', '0'], ['2', '0']] := by
  have h := c5_attack_items_roundtrip c5WitnessDB "SQLi" "desc"
    [['1', '0'], ['2', '0']] (by decide) (by decide) (by decide)
  exact ⟨h.1, h.2 1
    ⟨{ id := 1, name := "old", description := "od", items := [], note := "" },
      by decide, rfl⟩⟩

theorem likeMatch_pct_cons (ps ts : List Char) :
    likeMatch ('%' :: ps) ts = true ↔
      ∃ t1 t2, ts = t1 ++ t2 ∧ likeMatch ps t2 = true := by
  rw [show likeMatch ('%' :: ps) ts =
      ts.tails.any (fun suffix => likeMatch ps suffix) from by
    simp [likeMatch]]
  rw [List.any_eq_true]
  constructor
  · rintro ⟨suf, hsuf, hm⟩
    obtain ⟨t1, ht⟩ := (List.mem_tails _ _).mp hsuf
    exact ⟨t1, suf, ht.symm, hm⟩
  · rintro ⟨t1, t2, rfl, hm⟩
    exact ⟨t2, (List.mem_tails _ _).mpr ⟨t1, rfl⟩, hm⟩

theorem likeMatch_append_pct :
    ∀ ps : List Char, '%' ∉ ps → '_' ∉ ps → ∀ ts : List Char,
      (likeMatch (ps ++ ['%']) ts = true ↔
        ∃ t1 t2, ts = t1 ++ t2 ∧ ps.map asciiLower = t1.map asciiLower) := by
  intro ps
  induction ps with
  | nil =>
    intro _ _ ts
    constructor
    · intro _
      exact ⟨[], ts, rfl, rfl⟩
    · intro _
      rw [List.nil_append, likeMatch_pct_cons]
      exact ⟨ts, [], by simp, by simp [likeMatch]⟩
  | cons p ps ih =>
    intro h1 h2 ts
    simp only [List.mem_cons, not_or] at h1 h2
    have hne1 : ¬ p = '%' := fun h => h1.1 h.symm
    have hne2 : ¬ p = '_' := fun h => h2.1 h.symm
    cases ts with
    | nil =>
      rw [List.cons_append]
      simp [likeMatch, hne1]
    | cons t ts2 =>
      rw [List.cons_append]
      rw [show likeMatch (p :: (ps ++ ['%'])) (t :: ts2) =
          (charLikeEq p t && likeMatch (ps ++ ['%']) ts2) from by
        simp [likeMatch, hne1, hne2]]
      rw [Bool.and_eq_true, charLikeEq, beq_iff_eq, ih h1.2 h2.2 ts2]
      constructor
      · rintro ⟨hchar, t1, t2, rfl, hmap⟩
        exact ⟨t :: t1, t2, rfl, by simp [hchar, hmap]⟩
      · rintro ⟨t1, t2, heq2, hmap⟩
        cases t1 with
        | nil => simp at hmap
        | cons a t1 =>
          rw [List.cons_append] at heq2
          injection heq2 with hh1 hh2
          subst hh1
          subst hh2
          simp only [List.map_cons, List.cons.injEq] at hmap
          exact ⟨hmap.1, t1, t2, rfl, hmap.2⟩

theorem likeMatch_substring_iff (needle hay : List Char)
    (h1 : '%' ∉ needle) (h2 : '_' ∉ needle) :
    likeMatch ('%' :: (needle ++ ['%'])) hay = true ↔
      needle.map asciiLower <:+: hay.map asciiLower := by
  rw [likeMatch_pct_cons]
  constructor
  · rintro ⟨t1, t2, rfl, hm⟩
    obtain ⟨u1, u2, rfl, hmap⟩ := (likeMatch_append_pct needle h1 h2 t2).mp hm
    exact ⟨t1.map asciiLower, u2.map asciiLower, by simp [hmap]⟩
  · rintro ⟨s, t, heq⟩
    refine ⟨hay.take s.length, hay.drop s.length,
      (List.take_append_drop s.length hay).symm, ?_⟩
    apply (likeMatch_append_pct needle h1 h2 _).mpr
    refine ⟨(hay.drop s.length).take needle.length,
      (hay.drop s.length).drop needle.length,
      (List.take_append_drop needle.length _).symm, ?_⟩
    have hmap : ((hay.drop s.length).take needle.length).map asciiLower =
        needle.map asciiLower := by
      rw [List.map_take, List.map_drop, ← heq, List.append_assoc,
        List.drop_left]
      rw [show needle.length = (needle.map asciiLower).length from
        (List.length_map _ _).symm]
      exact List.take_left _ _
    exact hmap.symm

/-- C6: counterexample — SQLite LIKE is ASCII-case-insensitive and gives
`%` and `_` wildcard meaning inside keywords: searching ["admin"] returns
the item whose note is "ADMIN PANEL", and searching ["_"] returns the item
whose note is "x", although neither note contains its keyword as a literal
substring — so the result is not "exactly the items whose note contains at
least one of the keywords as a substring". -/
theorem c6_counterexample :
    (1, "10.0.0.9", 80) ∈ get_items_by_keywords upperNoteDb (some ["admin"]) ∧
      (∀ it ∈ upperNoteDb.items, ¬ ("admin".data <:+: it.note.data)) ∧
      (2, "10.0.0.8", 81) ∈ get_items_by_keywords upperNoteDb (some ["_"]) ∧
      ∀ it ∈ upperNoteDb.items, ¬ ("_".data <:+: it.note.data) := by
  decide

/-- C6 (amended): `get_items_by_keywords` returns the empty list for a
null keyword argument and for the empty keyword list (there via the
malformed empty WHERE clause), and for a non-empty keyword list free of
the LIKE wildcard characters `%` and `_` returns exactly the
(id, ip, port) triples of the items whose note contains at least one of
the keywords as a substring up to ASCII case, one LIKE clause per
keyword, OR-combined. -/
theorem c6_keyword_search (db : ItemDB) :
    get_items_by_keywords db none = [] ∧
      get_items_by_keywords db (some []) = [] ∧
      ∀ kws : List String, kws ≠ [] →
        (∀ kw ∈ kws, '%' ∉ kw.data ∧ '_' ∉ kw.data) →
        ∀ (i : Nat) (a : String) (p : Nat),
          ((i, a, p) ∈ get_items_by_keywords db (some kws) ↔
            ∃ it ∈ db.items, it.id = i ∧ it.ip = a ∧ it.port = p ∧
              ∃ kw ∈ kws,
                kw.data.map asciiLower <:+: it.note.data.map asciiLower) := by
  refine ⟨rfl, rfl, ?_⟩
  intro kws hne hwild i a p
  cases kws with
  | nil => exact absurd rfl hne
  | cons k ks =>
    rw [show get_items_by_keywords db (some (k :: ks)) =
        (db.items.filter (fun it => noteMatches (k :: ks) it.note)).map
          (fun it => (it.id, it.ip, it.port)) from rfl]
    constructor
    · intro ht
      obtain ⟨it, hit, hft⟩ := List.mem_map.mp ht
      obtain ⟨hmem, hmatch⟩ := List.mem_filter.mp hit
      simp only [Prod.mk.injEq] at hft
      obtain ⟨h1, h2, h3⟩ := hft
      simp only [noteMatches, List.any_eq_true] at hmatch
      obtain ⟨kw, hkw, hcs⟩ := hmatch
      exact ⟨it, hmem, h1, h2, h3, kw, hkw,
        (likeMatch_substring_iff kw.data it.note.data (hwild kw hkw).1
          (hwild kw hkw).2).mp hcs⟩
    · rintro ⟨it, hmem, h1, h2, h3, kw, hkw, hinf⟩
      apply List.mem_map.mpr
      refine ⟨it, List.mem_filter.mpr ⟨hmem, ?_⟩, ?_⟩
      · simp only [noteMatches, List.any_eq_true]
        exact ⟨kw, hkw,
          (likeMatch_substring_iff kw.data it.note.data (hwild kw hkw).1
            (hwild kw hkw).2).mpr hinf⟩
      · rw [h1, h2, h3]

/-- C6 witness: on the spec's example store, membership of the first
item's triple in the search for ["admin", "debug"] is characterised by the
case-folded substring condition. -/
theorem c6_witness :
    ((1, "10.0.0.1", 80) ∈ get_items_by_keywords kwDb (some ["admin", "debug"]) ↔
      ∃ it ∈ kwDb.items, it.id = 1 ∧ it.ip = "10.0.0.1" ∧ it.port = 80 ∧
        ∃ kw ∈ ["admin", "debug"],
          kw.data.map asciiLower <:+: it.note.data.map asciiLower) :=
  (c6_keyword_search kwDb).2.2 ["admin", "debug"] (by decide) (by decide)
    1 "10.0.0.1" 80

theorem summary_port_mem (db : ItemDB) (proto : String) (p : Nat) :
    p ∈ sqlDistinctSortedAsc
        ((db.items.filter
          (fun it => it.port != 0 && it.protocol == proto)).map Item.port) ↔
      p ≠ 0 ∧ ∃ it ∈ db.items, it.port = p ∧ it.protocol = proto := by
  rw [sqlDistinctSortedAsc_mem, List.mem_map]
  constructor
  · rintro ⟨it, hit, rfl⟩
    obtain ⟨hmem, hcond⟩ := List.mem_filter.mp hit
    simp only [Bool.and_eq_true, bne_iff_ne, beq_iff_eq] at hcond
    exact ⟨hcond.1, it, hmem, rfl, hcond.2⟩
  · rintro ⟨hp, it, hmem, hport, hproto⟩
    refine ⟨it, List.mem_filter.mpr ⟨hmem, ?_⟩, hport⟩
    simp [hport, hproto, hp]

/-- C7: `get_summary` excludes port-0 rows from the endpoint listing and
from the tcp/udp port lists but not from the distinct-ip listing, and the
tcp and udp port lists are de-duplicated and sorted ascending; on the
spec's example store the result is endpoints (A,80,tcp) and (A,53,udp),
distinct ips A and B, tcp ports [80] and udp ports [53]. -/
theorem c7_summary (db : ItemDB) :
    (∀ e ∈ (get_summary db).hosts, e.2.1 ≠ 0) ∧
      (∀ (a : String) (p : Nat) (pr : String),
        (a, p, pr) ∈ (get_summary db).hosts ↔
          ∃ it ∈ db.items, it.port ≠ 0 ∧ it.ip = a ∧ it.port = p ∧
            it.protocol = pr) ∧
      (∀ a : String, a ∈ (get_summary db).ips ↔ ∃ it ∈ db.items, it.ip = a) ∧
      ((get_summary db).tcp.Sorted (fun a b => a ≤ b) ∧
        (get_summary db).tcp.Nodup ∧
        ∀ p : Nat, p ∈ (get_summary db).tcp ↔
          p ≠ 0 ∧ ∃ it ∈ db.items, it.port = p ∧ it.protocol = "tcp") ∧
      ((get_summary db).udp.Sorted (fun a b => a ≤ b) ∧
        (get_summary db).udp.Nodup ∧
        ∀ p : Nat, p ∈ (get_summary db).udp ↔
          p ≠ 0 ∧ ∃ it ∈ db.items, it.port = p ∧ it.protocol = "udp") ∧
      get_summary summaryExampleDb =
        { hosts := [("A", 80, "tcp"), ("A", 53, "udp")], ips := ["A", "B"],
          tcp := [80], udp := [53] } := by
  refine ⟨?_, ?_, ?_, ⟨?_, ?_, ?_⟩, ⟨?_, ?_, ?_⟩, by decide⟩
  · intro e he
    simp only [get_summary, List.mem_map, List.mem_filter] at he
    obtain ⟨it, ⟨_, hp⟩, rfl⟩ := he
    simpa using hp
  · intro a p pr
    simp only [get_summary, List.mem_map, List.mem_filter]
    constructor
    · rintro ⟨it, ⟨hmem, hp⟩, hft⟩
      simp only [Prod.mk.injEq] at hft
      obtain ⟨h1, h2, h3⟩ := hft
      exact ⟨it, hmem, by simpa using hp, h1, h2, h3⟩
    · rintro ⟨it, hmem, hp, h1, h2, h3⟩
      exact ⟨it, ⟨hmem, by simpa using hp⟩, by rw [h1, h2, h3]⟩
  · intro a
    simp only [get_summary, List.mem_dedup, List.mem_map]
  · exact sqlDistinctSortedAsc_sorted _
  · exact sqlDistinctSortedAsc_nodup _
  · exact fun p => summary_port_mem db "tcp" p
  · exact sqlDistinctSortedAsc_sorted _
  · exact sqlDistinctSortedAsc_nodup _
  · exact fun p => summary_port_mem db "udp" p

/-- C7 witness: the endpoint (A,80,tcp) is listed in the example store's
summary and, as the theorem states for every listed endpoint, its port is
not 0. -/
theorem c7_witness :
    ("A", 80, "tcp") ∈ (get_summary summaryExampleDb).hosts ∧
      (("A", 80, "tcp") : String × Nat × String).2.1 ≠ 0 :=
  ⟨by decide, (c7_summary summaryExampleDb).1 ("A", 80, "tcp") (by decide)⟩

end Ptnotes
